import Mathlib

/-!
Shallow embedding of the `chain-registry` crate's registry access layer
(`src/registry.rs`, `src/chain.rs`, `src/paths.rs`), together with the parts
of its serde (de)serialization behaviour that the verified properties need.

Modelling conventions:
* JSON documents are modelled by the inductive `Json`; a fetched HTTP body is
  either a well-formed JSON document or not (`Body.notJson`), since none of
  the verified properties depend on concrete JSON text syntax.
* The HTTP transport (`reqwest`) is modelled by a function
  `fetch : String → Option Response` mapping a URL to `none` (transport
  failure: connection/DNS error) or `some` response carrying a status code
  and a body.  `get_file_content` in the source only ever compares the
  status against `404`, which the embedding reproduces.
* serde numbers are modelled as exact rationals: every finite `f32`/`u32`
  value is a rational, and `serde_json` round-trips finite floats exactly
  (shortest-representation printing).  Machine-integer fields (`u32`)
  deserialize only from integral rationals in `[0, 2^32)`.
* `eyre` errors are modelled by the inductive `Err`; only the distinction
  between the error constructors matters, not the rendered messages.
-/

/-- A JSON value, as produced by `serde_json`. -/
inductive Json where
  | null
  | bool (b : Bool)
  | num (q : Rat)
  | str (s : String)
  | arr (elems : List Json)
  | obj (fields : List (String × Json))

/-- The body of an HTTP response: either a well-formed JSON document or
arbitrary non-JSON text (e.g. the literal `404: Not Found` page). -/
inductive Body where
  | notJson
  | json (j : Json)

/-- An HTTP response: a status code and a body. -/
structure Response where
  status : Nat
  body : Body

/-- The transport: maps a URL to `none` (transport-level failure) or a
response. -/
abbrev Fetch := String → Option Response

/-- Errors surfaced by the registry client (`eyre::Report` in the source);
only the construction sites matter for the verified properties. -/
inductive Err where
  | transport
  | notFound (path : String)
  | listingParse
deriving DecidableEq

/-- `Ref` from `src/registry.rs`: either the latest commit or a pinned git
sha. -/
inductive Ref where
  | Latest
  | SHA (sha : String)

/-- The `Display` impl for `Ref`: `Latest` renders as the branch name
`master`, `SHA(sha)` renders as the sha itself. -/
def Ref.display : Ref → String
  | .Latest => "master"
  | .SHA sha => sha

/-- `Repo` from `src/registry.rs`. -/
structure Repo where
  git_ref : Ref
  url : String
  raw_file_url : String

/-- The `Default` impl for `Repo`. -/
def Repo.defaultRepo : Repo :=
  { git_ref := .SHA "1ec726b7308a71ce0cb02916b1929979c6f2e39d"
    url := "https://api.github.com/repos/cosmos/chain-registry/contents"
    raw_file_url := "https://raw.githubusercontent.com/cosmos/chain-registry" }

/-! ### Generic serde-style decoding helpers

These model the behaviour of `#[derive(Deserialize)]` with the attributes
used in `src/chain.rs` / `src/paths.rs`: a struct deserializes from a JSON
object; with `#[serde(default)]` a missing field takes its `Default` value;
without it a missing field is an error; unknown fields are ignored (none of
the structs carries `deny_unknown_fields`). -/

/-- Look up the first occurrence of a field name in a JSON object's field
list. -/
def getField (fields : List (String × Json)) (name : String) : Option Json :=
  (fields.find? (fun p => p.1 = name)).map Prod.snd

/-- Decode a JSON string (`String` field). -/
def decStr : Json → Option String
  | .str s => some s
  | _ => none

/-- Decode a JSON boolean (`bool` field). -/
def decBool : Json → Option Bool
  | .bool b => some b
  | _ => none

/-- Decode a `u32` field: the JSON number must be an integer in
`[0, 2^32)`. -/
def decU32 : Json → Option Nat
  | .num q =>
      if q.den = 1 ∧ 0 ≤ q.num ∧ q.num < 4294967296 then some q.num.toNat
      else none
  | _ => none

/-- Decode an `f32` field, modelled as an exact rational. -/
def decF32 : Json → Option Rat
  | .num q => some q
  | _ => none

/-- Decode an `Option<String>` field: JSON `null` is `None`, a string is
`Some`. -/
def decOptStr : Json → Option (Option String)
  | .null => some none
  | .str s => some (some s)
  | _ => none

/-- Decode a sequence elementwise; any element failure fails the whole
sequence. -/
def decListAux (d : Json → Option α) : List Json → Option (List α)
  | [] => some []
  | j :: js =>
      match d j, decListAux d js with
      | some a, some as => some (a :: as)
      | _, _ => none

/-- Decode a `Vec<T>` field from a JSON array, elementwise. -/
def decList (d : Json → Option α) : Json → Option (List α)
  | .arr elems => decListAux d elems
  | _ => none

/-- A required struct field (no `#[serde(default)]`): missing or ill-typed
is an error. -/
def fieldReq (fields : List (String × Json)) (name : String)
    (d : Json → Option α) : Option α :=
  match getField fields name with
  | none => none
  | some v => d v

/-- A defaulted struct field (`#[serde(default)]` on the container, or a
field-level `default = ...`): missing takes the default, present but
ill-typed is an error. -/
def fieldDef (fields : List (String × Json)) (name : String)
    (d : Json → Option α) (dflt : α) : Option α :=
  match getField fields name with
  | none => some dflt
  | some v => d v

/-! ### Directory-listing entries

`src/github.rs` is not among the provided sources.  Modelled from the spec:
a directory-listing entry is "a fixed two-field record: name, type"
(`{ name: string, type: "file"|"dir" }`, additional fields ignored), which
`src/registry.rs` consumes through the fields `name` and `type_field`. -/

structure Content where
  name : String
  type_field : String
deriving DecidableEq

/-- Modelled from the spec: decode one directory-listing entry; `name` and
`type` are required, additional fields are ignored. -/
def decContent : Json → Option Content
  | .obj fields =>
      match fieldReq fields "name" decStr, fieldReq fields "type" decStr with
      | some n, some t => some { name := n, type_field := t }
      | _, _ => none
  | _ => none

/-- Modelled from the spec: `serde_json::from_str::<Vec<Content>>` applied
to a fetched body. -/
def decContentList : Body → Option (List Content)
  | .notJson => none
  | .json j => decList decContent j

/-! ### The registry client (`src/registry.rs`) -/

/-- Rust `str::starts_with(c)` for a single `char` pattern, over the
character list of the string. -/
def starts_with (s : String) (c : Char) : Bool :=
  match s.data with
  | [] => false
  | d :: _ => d == c

/-- Rust `str::ends_with(pat)` for a literal ASCII pattern: a byte-suffix
match coincides with a character-suffix match (UTF-8 is
self-synchronizing). -/
def ends_with (s pat : String) : Bool :=
  pat.data.isSuffixOf s.data

/-- The byte slicing `name[..name.len() - ".json".len()]` from
`Registry::list_paths`: for the names it is applied to (which pass the
`ends_with(".json")` filter) the last five bytes are the five ASCII
characters of `.json`, so it drops the final five characters. -/
def strip_json_suffix (s : String) : String :=
  String.mk (s.data.take (s.data.length - ".json".data.length))

/-- The free function `get` from `src/registry.rs` (named `http_get` here
because plain `get` is ambiguous in scope): one GET request, returning the
body text regardless of the HTTP status (the status is never inspected
here). -/
def http_get (fetch : Fetch) (url : String) : Except Err Body :=
  match fetch url with
  | none => .error .transport
  | some resp => .ok resp.body

/-- `get_file_content` from `src/registry.rs`: fetch
`{raw_file_url}/{git_ref}/{path}`; a `404` status is the error
`path {path} not found`; any other response yields the body text. -/
def get_file_content (fetch : Fetch) (path : String) (repo : Repo) :
    Except Err Body :=
  match fetch (repo.raw_file_url ++ "/" ++ repo.git_ref.display ++ "/" ++ path) with
  | none => .error .transport
  | some resp =>
      if resp.status = 404 then .error (.notFound path)
      else .ok resp.body

/-- `parse_json` from `src/registry.rs`: `serde_json::from_str(&data).ok()`
— any deserialization failure is coerced to `None`. -/
def parse_json (decode : Json → Option α) (data : Body) : Option α :=
  match data with
  | .notJson => none
  | .json j => decode j

/-- `Registry::list_chains`: fetch `{url}?ref={git_ref}`, parse a
`Vec<Content>`, keep directory entries whose name neither starts with `_`
nor equals `.github`, and return their names. -/
def list_chains (fetch : Fetch) (repo : Repo) : Except Err (List String) :=
  match http_get fetch (repo.url ++ "?ref=" ++ repo.git_ref.display) with
  | .error e => .error e
  | .ok body =>
  match decContentList body with
  | none => .error .listingParse
  | some contents =>
      .ok ((contents.filter (fun c =>
            c.type_field == "dir" && !(starts_with c.name '_') && c.name != ".github")).map
          (fun c => c.name))

/-- `Registry::list_paths`: fetch `{url}/_IBC?ref={git_ref}`, parse a
`Vec<Content>`, keep file entries whose name does not start with `_` and
ends with `.json`, and strip the trailing `".json".len()` bytes from each
kept name. -/
def list_paths (fetch : Fetch) (repo : Repo) : Except Err (List String) :=
  match http_get fetch (repo.url ++ "/_IBC?ref=" ++ repo.git_ref.display) with
  | .error e => .error e
  | .ok body =>
  match decContentList body with
  | none => .error .listingParse
  | some contents =>
      .ok ((contents.filter (fun c =>
            c.type_field == "file" && !(starts_with c.name '_') && ends_with c.name ".json")).map
          (fun c => strip_json_suffix c.name))

/-! ### `src/chain.rs`: the `chain.json` schema

Every struct in `chain.rs` derives `Default` and carries `#[serde(default)]`
except `PersistentPeer` (whose fields are therefore required).  None of them
carries `deny_unknown_fields`, so unknown fields are ignored by serde's
derived deserializer.  Serialization writes every field in declaration
order, except the fields marked `skip_serializing_if = "Vec::is_empty"`,
which are omitted when empty. -/

structure Genesis where
  genesis_url : String
deriving DecidableEq

structure Binaries where
  linux_amd_64 : String
  linux_arm_64 : String
  darwin_amd_64 : String
  darwin_arm_64 : String
  windows_amd_64 : String
deriving DecidableEq

structure Codebase where
  git_repo : String
  recommended_version : String
  compatible_versions : List String
  binaries : Binaries
  cosmos_sdk_version : String
  tendermint_version : String
  cosmwasm_version : String
  cosmwasm_enabled : Bool
deriving DecidableEq

structure Seed where
  id : String
  address : String
  provider : Option String
deriving DecidableEq

structure PersistentPeer where
  id : String
  address : String
deriving DecidableEq

structure Peers where
  seeds : List Seed
  persistent_peers : List PersistentPeer
deriving DecidableEq

structure Rpc where
  address : String
  provider : Option String
deriving DecidableEq

structure Rest where
  address : String
  provider : Option String
deriving DecidableEq

structure Grpc where
  address : String
  provider : Option String
deriving DecidableEq

structure Apis where
  rpc : List Rpc
  rest : List Rest
  grpc : List Grpc
deriving DecidableEq

structure FeeToken where
  denom : String
  fixed_min_gas_price : Rat
  low_gas_price : Rat
  average_gas_price : Rat
  high_gas_price : Rat
deriving DecidableEq

structure Fees where
  fee_tokens : List FeeToken
deriving DecidableEq

structure StakingToken where
  denom : String
deriving DecidableEq

structure Staking where
  staking_tokens : List StakingToken
deriving DecidableEq

structure Explorer where
  kind : String
  url : String
  tx_page : String
  account_page : String
deriving DecidableEq

structure ChainInfo where
  schema : String
  chain_name : String
  status : String
  network_type : String
  pretty_name : String
  chain_id : String
  bech32_prefix : String
  daemon_name : String
  node_home : String
  slip44 : Nat
  genesis : Genesis
  codebase : Codebase
  peers : Peers
  apis : Apis
  fees : Fees
  staking : Staking
  website : String
  update_link : String
  key_algos : List String
  explorers : List Explorer
deriving DecidableEq

/-- `Default for Genesis`. -/
def Genesis.dflt : Genesis := { genesis_url := "" }

/-- `Default for Binaries`. -/
def Binaries.dflt : Binaries :=
  { linux_amd_64 := "", linux_arm_64 := "", darwin_amd_64 := ""
    darwin_arm_64 := "", windows_amd_64 := "" }

/-- `Default for Codebase`. -/
def Codebase.dflt : Codebase :=
  { git_repo := "", recommended_version := "", compatible_versions := []
    binaries := Binaries.dflt, cosmos_sdk_version := ""
    tendermint_version := "", cosmwasm_version := "", cosmwasm_enabled := false }

/-- `Default for Peers`. -/
def Peers.dflt : Peers := { seeds := [], persistent_peers := [] }

/-- `Default for Apis`. -/
def Apis.dflt : Apis := { rpc := [], rest := [], grpc := [] }

/-- `Default for Fees`. -/
def Fees.dflt : Fees := { fee_tokens := [] }

/-- `Default for Staking`. -/
def Staking.dflt : Staking := { staking_tokens := [] }

/-- `Default for ChainInfo`. -/
def ChainInfo.dflt : ChainInfo :=
  { schema := "", chain_name := "", status := "", network_type := ""
    pretty_name := "", chain_id := "", bech32_prefix := "", daemon_name := ""
    node_home := "", slip44 := 0, genesis := Genesis.dflt
    codebase := Codebase.dflt, peers := Peers.dflt, apis := Apis.dflt
    fees := Fees.dflt, staking := Staking.dflt, website := ""
    update_link := "", key_algos := [], explorers := [] }

def Genesis.decode : Json → Option Genesis
  | .obj fs => do
      let genesis_url ← fieldDef fs "genesis_url" decStr ""
      some { genesis_url := genesis_url }
  | _ => none

def Binaries.decode : Json → Option Binaries
  | .obj fs => do
      let la ← fieldDef fs "linux/amd64" decStr ""
      let lr ← fieldDef fs "linux/arm64" decStr ""
      let da ← fieldDef fs "darwin/amd64" decStr ""
      let dr ← fieldDef fs "darwin/arm64" decStr ""
      let wa ← fieldDef fs "windows/amd64" decStr ""
      some { linux_amd_64 := la, linux_arm_64 := lr, darwin_amd_64 := da
             darwin_arm_64 := dr, windows_amd_64 := wa }
  | _ => none

def Codebase.decode : Json → Option Codebase
  | .obj fs => do
      let gr ← fieldDef fs "git_repo" decStr ""
      let rv ← fieldDef fs "recommended_version" decStr ""
      let cv ← fieldDef fs "compatible_versions" (decList decStr) []
      let bi ← fieldDef fs "binaries" Binaries.decode Binaries.dflt
      let sdk ← fieldDef fs "cosmos_sdk_version" decStr ""
      let tm ← fieldDef fs "tendermint_version" decStr ""
      let cw ← fieldDef fs "cosmwasm_version" decStr ""
      let ce ← fieldDef fs "cosmwasm_enabled" decBool false
      some { git_repo := gr, recommended_version := rv
             compatible_versions := cv, binaries := bi
             cosmos_sdk_version := sdk, tendermint_version := tm
             cosmwasm_version := cw, cosmwasm_enabled := ce }
  | _ => none

def Seed.decode : Json → Option Seed
  | .obj fs => do
      let i ← fieldDef fs "id" decStr ""
      let a ← fieldDef fs "address" decStr ""
      let p ← fieldDef fs "provider" decOptStr none
      some { id := i, address := a, provider := p }
  | _ => none

/-- `PersistentPeer` has no `#[serde(default)]`: both fields are required. -/
def PersistentPeer.decode : Json → Option PersistentPeer
  | .obj fs => do
      let i ← fieldReq fs "id" decStr
      let a ← fieldReq fs "address" decStr
      some { id := i, address := a }
  | _ => none

def Peers.decode : Json → Option Peers
  | .obj fs => do
      let s ← fieldDef fs "seeds" (decList Seed.decode) []
      let p ← fieldDef fs "persistent_peers" (decList PersistentPeer.decode) []
      some { seeds := s, persistent_peers := p }
  | _ => none

def Rpc.decode : Json → Option Rpc
  | .obj fs => do
      let a ← fieldDef fs "address" decStr ""
      let p ← fieldDef fs "provider" decOptStr none
      some { address := a, provider := p }
  | _ => none

def Rest.decode : Json → Option Rest
  | .obj fs => do
      let a ← fieldDef fs "address" decStr ""
      let p ← fieldDef fs "provider" decOptStr none
      some { address := a, provider := p }
  | _ => none

def Grpc.decode : Json → Option Grpc
  | .obj fs => do
      let a ← fieldDef fs "address" decStr ""
      let p ← fieldDef fs "provider" decOptStr none
      some { address := a, provider := p }
  | _ => none

def Apis.decode : Json → Option Apis
  | .obj fs => do
      let r ← fieldDef fs "rpc" (decList Rpc.decode) []
      let re ← fieldDef fs "rest" (decList Rest.decode) []
      let g ← fieldDef fs "grpc" (decList Grpc.decode) []
      some { rpc := r, rest := re, grpc := g }
  | _ => none

def FeeToken.decode : Json → Option FeeToken
  | .obj fs => do
      let d ← fieldDef fs "denom" decStr ""
      let f ← fieldDef fs "fixed_min_gas_price" decF32 0
      let l ← fieldDef fs "low_gas_price" decF32 0
      let a ← fieldDef fs "average_gas_price" decF32 0
      let h ← fieldDef fs "high_gas_price" decF32 0
      some { denom := d, fixed_min_gas_price := f, low_gas_price := l
             average_gas_price := a, high_gas_price := h }
  | _ => none

def Fees.decode : Json → Option Fees
  | .obj fs => do
      let ft ← fieldDef fs "fee_tokens" (decList FeeToken.decode) []
      some { fee_tokens := ft }
  | _ => none

def StakingToken.decode : Json → Option StakingToken
  | .obj fs => do
      let d ← fieldDef fs "denom" decStr ""
      some { denom := d }
  | _ => none

def Staking.decode : Json → Option Staking
  | .obj fs => do
      let st ← fieldDef fs "staking_tokens" (decList StakingToken.decode) []
      some { staking_tokens := st }
  | _ => none

def Explorer.decode : Json → Option Explorer
  | .obj fs => do
      let k ← fieldDef fs "kind" decStr ""
      let u ← fieldDef fs "url" decStr ""
      let t ← fieldDef fs "tx_page" decStr ""
      let a ← fieldDef fs "account_page" decStr ""
      some { kind := k, url := u, tx_page := t, account_page := a }
  | _ => none

def ChainInfo.decode (j : Json) : Option ChainInfo :=
  match j with
  | .obj fs =>
      match fieldDef fs "$schema" decStr "" with
      | none => none
      | some sc =>
      match fieldDef fs "chain_name" decStr "" with
      | none => none
      | some cn =>
      match fieldDef fs "status" decStr "" with
      | none => none
      | some st =>
      match fieldDef fs "network_type" decStr "" with
      | none => none
      | some nt =>
      match fieldDef fs "pretty_name" decStr "" with
      | none => none
      | some pn =>
      match fieldDef fs "chain_id" decStr "" with
      | none => none
      | some ci =>
      match fieldDef fs "bech32_prefix" decStr "" with
      | none => none
      | some bp =>
      match fieldDef fs "daemon_name" decStr "" with
      | none => none
      | some dn =>
      match fieldDef fs "node_home" decStr "" with
      | none => none
      | some nh =>
      match fieldDef fs "slip44" decU32 0 with
      | none => none
      | some sl =>
      match fieldDef fs "genesis" Genesis.decode Genesis.dflt with
      | none => none
      | some ge =>
      match fieldDef fs "codebase" Codebase.decode Codebase.dflt with
      | none => none
      | some co =>
      match fieldDef fs "peers" Peers.decode Peers.dflt with
      | none => none
      | some pe =>
      match fieldDef fs "apis" Apis.decode Apis.dflt with
      | none => none
      | some ap =>
      match fieldDef fs "fees" Fees.decode Fees.dflt with
      | none => none
      | some fe =>
      match fieldDef fs "staking" Staking.decode Staking.dflt with
      | none => none
      | some sk =>
      match fieldDef fs "website" decStr "" with
      | none => none
      | some we =>
      match fieldDef fs "update_link" decStr "" with
      | none => none
      | some ul =>
      match fieldDef fs "key_algos" (decList decStr) [] with
      | none => none
      | some ka =>
      match fieldDef fs "explorers" (decList Explorer.decode) [] with
      | none => none
      | some ex =>
      some { schema := sc, chain_name := cn, status := st, network_type := nt
             pretty_name := pn, chain_id := ci, bech32_prefix := bp
             daemon_name := dn, node_home := nh, slip44 := sl, genesis := ge
             codebase := co, peers := pe, apis := ap, fees := fe, staking := sk
             website := we, update_link := ul, key_algos := ka, explorers := ex }
  | _ => none

/-! ### Serialization (`#[derive(Serialize)]`) for the `chain.rs` structs

Serialization writes every field in declaration order (with the serde
renames), except that a field marked `skip_serializing_if = "Vec::is_empty"`
is omitted when the vector is empty.  `Option<String>` serializes `None` as
JSON `null`. -/

def encStr (s : String) : Json := .str s

def encBool (b : Bool) : Json := .bool b

def encU32 (n : Nat) : Json := .num (n : Rat)

def encF32 (q : Rat) : Json := .num q

def encOptStr : Option String → Json
  | none => .null
  | some s => .str s

def encList (e : α → Json) (l : List α) : Json := .arr (l.map e)

/-- A `Vec` field marked `skip_serializing_if = "Vec::is_empty"`: omitted
from the object when empty. -/
def vecField (name : String) (e : α → Json) (l : List α) :
    List (String × Json) :=
  if l.isEmpty then [] else [(name, encList e l)]

def Genesis.encode (g : Genesis) : Json :=
  .obj [("genesis_url", encStr g.genesis_url)]

def Binaries.encode (b : Binaries) : Json :=
  .obj [("linux/amd64", encStr b.linux_amd_64),
        ("linux/arm64", encStr b.linux_arm_64),
        ("darwin/amd64", encStr b.darwin_amd_64),
        ("darwin/arm64", encStr b.darwin_arm_64),
        ("windows/amd64", encStr b.windows_amd_64)]

def Codebase.encode (c : Codebase) : Json :=
  .obj ([("git_repo", encStr c.git_repo),
         ("recommended_version", encStr c.recommended_version)]
    ++ vecField "compatible_versions" encStr c.compatible_versions
    ++ [("binaries", c.binaries.encode),
        ("cosmos_sdk_version", encStr c.cosmos_sdk_version),
        ("tendermint_version", encStr c.tendermint_version),
        ("cosmwasm_version", encStr c.cosmwasm_version),
        ("cosmwasm_enabled", encBool c.cosmwasm_enabled)])

def Seed.encode (s : Seed) : Json :=
  .obj [("id", encStr s.id), ("address", encStr s.address),
        ("provider", encOptStr s.provider)]

def PersistentPeer.encode (p : PersistentPeer) : Json :=
  .obj [("id", encStr p.id), ("address", encStr p.address)]

def Peers.encode (p : Peers) : Json :=
  .obj (vecField "seeds" Seed.encode p.seeds
    ++ [("persistent_peers", encList PersistentPeer.encode p.persistent_peers)])

def Rpc.encode (r : Rpc) : Json :=
  .obj [("address", encStr r.address), ("provider", encOptStr r.provider)]

def Rest.encode (r : Rest) : Json :=
  .obj [("address", encStr r.address), ("provider", encOptStr r.provider)]

def Grpc.encode (g : Grpc) : Json :=
  .obj [("address", encStr g.address), ("provider", encOptStr g.provider)]

def Apis.encode (a : Apis) : Json :=
  .obj (vecField "rpc" Rpc.encode a.rpc
    ++ vecField "rest" Rest.encode a.rest
    ++ [("grpc", encList Grpc.encode a.grpc)])

def FeeToken.encode (f : FeeToken) : Json :=
  .obj [("denom", encStr f.denom),
        ("fixed_min_gas_price", encF32 f.fixed_min_gas_price),
        ("low_gas_price", encF32 f.low_gas_price),
        ("average_gas_price", encF32 f.average_gas_price),
        ("high_gas_price", encF32 f.high_gas_price)]

def Fees.encode (f : Fees) : Json :=
  .obj (vecField "fee_tokens" FeeToken.encode f.fee_tokens)

def StakingToken.encode (s : StakingToken) : Json :=
  .obj [("denom", encStr s.denom)]

def Staking.encode (s : Staking) : Json :=
  .obj (vecField "staking_tokens" StakingToken.encode s.staking_tokens)

def Explorer.encode (e : Explorer) : Json :=
  .obj [("kind", encStr e.kind), ("url", encStr e.url),
        ("tx_page", encStr e.tx_page), ("account_page", encStr e.account_page)]

def ChainInfo.encode (c : ChainInfo) : Json :=
  .obj [("$schema", encStr c.schema),
        ("chain_name", encStr c.chain_name),
        ("status", encStr c.status),
        ("network_type", encStr c.network_type),
        ("pretty_name", encStr c.pretty_name),
        ("chain_id", encStr c.chain_id),
        ("bech32_prefix", encStr c.bech32_prefix),
        ("daemon_name", encStr c.daemon_name),
        ("node_home", encStr c.node_home),
        ("slip44", encU32 c.slip44),
        ("genesis", c.genesis.encode),
        ("codebase", c.codebase.encode),
        ("peers", c.peers.encode),
        ("apis", c.apis.encode),
        ("fees", c.fees.encode),
        ("staking", c.staking.encode),
        ("website", encStr c.website),
        ("update_link", encStr c.update_link),
        ("key_algos", encList encStr c.key_algos),
        ("explorers", encList Explorer.encode c.explorers)]

/-! ### `src/paths.rs`: the `_IBC/<a>-<b>.json` schema

Every struct derives `Default` and carries
`#[serde(default, rename_all = "snake_case")]`; the field names are already
snake case, so only the `$schema` rename is observable. -/

structure Chain1 where
  chain_name : String
  client_id : String
  connection_id : String
deriving DecidableEq

structure Chain2 where
  chain_name : String
  client_id : String
  connection_id : String
deriving DecidableEq

structure ChannelChain1 where
  channel_id : String
  port_id : String
deriving DecidableEq

structure ChannelChain2 where
  channel_id : String
  port_id : String
deriving DecidableEq

structure Tags where
  dex : String
  preferred : Bool
  properties : String
  status : String
deriving DecidableEq

structure Channel where
  chain_1 : ChannelChain1
  chain_2 : ChannelChain2
  ordering : String
  version : String
  tags : Tags
deriving DecidableEq

structure IBCPath where
  schema : String
  chain_1 : Chain1
  chain_2 : Chain2
  channels : List Channel
deriving DecidableEq

/-- `Default for Chain1`. -/
def Chain1.dflt : Chain1 :=
  { chain_name := "", client_id := "", connection_id := "" }

/-- `Default for Chain2`. -/
def Chain2.dflt : Chain2 :=
  { chain_name := "", client_id := "", connection_id := "" }

/-- `Default for IBCPath`. -/
def IBCPath.dflt : IBCPath :=
  { schema := "", chain_1 := Chain1.dflt, chain_2 := Chain2.dflt
    channels := [] }

def Chain1.decode : Json → Option Chain1
  | .obj fs => do
      let cn ← fieldDef fs "chain_name" decStr ""
      let ci ← fieldDef fs "client_id" decStr ""
      let co ← fieldDef fs "connection_id" decStr ""
      some { chain_name := cn, client_id := ci, connection_id := co }
  | _ => none

def Chain2.decode : Json → Option Chain2
  | .obj fs => do
      let cn ← fieldDef fs "chain_name" decStr ""
      let ci ← fieldDef fs "client_id" decStr ""
      let co ← fieldDef fs "connection_id" decStr ""
      some { chain_name := cn, client_id := ci, connection_id := co }
  | _ => none

def ChannelChain1.decode : Json → Option ChannelChain1
  | .obj fs => do
      let ch ← fieldDef fs "channel_id" decStr ""
      let po ← fieldDef fs "port_id" decStr ""
      some { channel_id := ch, port_id := po }
  | _ => none

def ChannelChain2.decode : Json → Option ChannelChain2
  | .obj fs => do
      let ch ← fieldDef fs "channel_id" decStr ""
      let po ← fieldDef fs "port_id" decStr ""
      some { channel_id := ch, port_id := po }
  | _ => none

def Tags.decode : Json → Option Tags
  | .obj fs => do
      let d ← fieldDef fs "dex" decStr ""
      let pr ← fieldDef fs "preferred" decBool false
      let po ← fieldDef fs "properties" decStr ""
      let st ← fieldDef fs "status" decStr ""
      some { dex := d, preferred := pr, properties := po, status := st }
  | _ => none

def Channel.decode : Json → Option Channel
  | .obj fs => do
      let c1 ← fieldDef fs "chain_1" ChannelChain1.decode
        { channel_id := "", port_id := "" }
      let c2 ← fieldDef fs "chain_2" ChannelChain2.decode
        { channel_id := "", port_id := "" }
      let o ← fieldDef fs "ordering" decStr ""
      let v ← fieldDef fs "version" decStr ""
      let t ← fieldDef fs "tags" Tags.decode
        { dex := "", preferred := false, properties := "", status := "" }
      some { chain_1 := c1, chain_2 := c2, ordering := o, version := v
             tags := t }
  | _ => none

def IBCPath.decode : Json → Option IBCPath
  | .obj fs => do
      let sc ← fieldDef fs "$schema" decStr ""
      let c1 ← fieldDef fs "chain_1" Chain1.decode Chain1.dflt
      let c2 ← fieldDef fs "chain_2" Chain2.decode Chain2.dflt
      let ch ← fieldDef fs "channels" (decList Channel.decode) []
      some { schema := sc, chain_1 := c1, chain_2 := c2, channels := ch }
  | _ => none

/-! ### The single-resource operations of `src/registry.rs`

`src/assets.rs` is not among the provided sources.  Modelled from the spec:
`AssetList` is "an opaque deserialization target", modelled as a wrapper
accepting any well-formed JSON document. -/

structure AssetList where
  raw : Json

/-- Modelled from the spec: the deserialization target of `assetlist.json`;
its field set is out of core scope, so any JSON document is accepted. -/
def AssetList.decode (j : Json) : Option AssetList := some { raw := j }

/-- `Registry::get_assets`: fetch `{name}/assetlist.json` and coerce the
result through `parse_json`. -/
def get_assets (fetch : Fetch) (repo : Repo) (name : String) :
    Except Err (Option AssetList) :=
  (get_file_content fetch (name ++ "/assetlist.json") repo).map
    (parse_json AssetList.decode)

/-- `Registry::get_chain`: fetch `{name}/chain.json` and coerce the result
through `parse_json`. -/
def get_chain (fetch : Fetch) (repo : Repo) (name : String) :
    Except Err (Option ChainInfo) :=
  (get_file_content fetch (name ++ "/chain.json") repo).map
    (parse_json ChainInfo.decode)

/-- `Registry::get_path`: fetch `_IBC/{min}-{max}.json` (the two chain
names ordered lexicographically) and coerce the result through
`parse_json`. -/
def get_path (fetch : Fetch) (repo : Repo) (chain_a chain_b : String) :
    Except Err (Option IBCPath) :=
  (get_file_content fetch
      ("_IBC/" ++ min chain_a chain_b ++ "-" ++ max chain_a chain_b ++ ".json")
      repo).map
    (parse_json IBCPath.decode)

/-! ## Serialization round-trip lemmas for the `chain.rs` structs -/

theorem decListAux_map (dec : Json → Option α) (enc : α → Json)
    (h : ∀ a, dec (enc a) = some a) (l : List α) :
    decListAux dec (l.map enc) = some l := by
  induction l with
  | nil => rfl
  | cons a t ih => simp [decListAux, h, ih]

theorem decList_encList (dec : Json → Option α) (enc : α → Json)
    (h : ∀ a, dec (enc a) = some a) (l : List α) :
    decList dec (encList enc l) = some l := by
  simp [decList, encList, decListAux_map dec enc h]

theorem decStr_encStr (s : String) : decStr (encStr s) = some s := rfl

theorem decBool_encBool (b : Bool) : decBool (encBool b) = some b := rfl

theorem decF32_encF32 (q : Rat) : decF32 (encF32 q) = some q := rfl

theorem decOptStr_encOptStr (o : Option String) :
    decOptStr (encOptStr o) = some o := by cases o <;> rfl

theorem decU32_encU32 (n : Nat) (h : n < 4294967296) :
    decU32 (encU32 n) = some n := by
  simp [decU32, encU32, Rat.den_natCast, Rat.num_natCast]
  omega

theorem decode_encode_genesis (g : Genesis) :
    Genesis.decode (Genesis.encode g) = some g := rfl

theorem decode_encode_binaries (b : Binaries) :
    Binaries.decode (Binaries.encode b) = some b := rfl

theorem decode_encode_codebase (c : Codebase) :
    Codebase.decode (Codebase.encode c) = some c := by
  cases c with
  | mk gr rv cv bi sdk tm cw ce =>
    by_cases hcv : cv.isEmpty <;>
      simp_all [List.isEmpty_iff, Codebase.encode, Codebase.decode, vecField,
        fieldDef, getField, List.find?, decode_encode_binaries, decStr_encStr,
        decBool_encBool, decList_encList _ _ decStr_encStr]

theorem decode_encode_seed (s : Seed) :
    Seed.decode (Seed.encode s) = some s := by
  cases s with
  | mk i a p => cases p <;> rfl

theorem decode_encode_persistentpeer (p : PersistentPeer) :
    PersistentPeer.decode (PersistentPeer.encode p) = some p := rfl

theorem decode_encode_peers (p : Peers) :
    Peers.decode (Peers.encode p) = some p := by
  cases p with
  | mk se pp =>
    by_cases hse : se.isEmpty <;>
      simp_all [List.isEmpty_iff, Peers.encode, Peers.decode, vecField,
        fieldDef, getField, List.find?,
        decList_encList _ _ decode_encode_seed,
        decList_encList _ _ decode_encode_persistentpeer]

theorem decode_encode_rpc (r : Rpc) : Rpc.decode (Rpc.encode r) = some r := by
  cases r with
  | mk a p => cases p <;> rfl

theorem decode_encode_rest (r : Rest) :
    Rest.decode (Rest.encode r) = some r := by
  cases r with
  | mk a p => cases p <;> rfl

theorem decode_encode_grpc (g : Grpc) :
    Grpc.decode (Grpc.encode g) = some g := by
  cases g with
  | mk a p => cases p <;> rfl

theorem decode_encode_apis (a : Apis) :
    Apis.decode (Apis.encode a) = some a := by
  cases a with
  | mk r re g =>
    by_cases hr : r.isEmpty <;> by_cases hre : re.isEmpty <;>
      simp_all [List.isEmpty_iff, Apis.encode, Apis.decode, vecField, fieldDef,
        getField, List.find?, decList_encList _ _ decode_encode_rpc,
        decList_encList _ _ decode_encode_rest,
        decList_encList _ _ decode_encode_grpc]

theorem decode_encode_feetoken (f : FeeToken) :
    FeeToken.decode (FeeToken.encode f) = some f := rfl

theorem decode_encode_fees (f : Fees) :
    Fees.decode (Fees.encode f) = some f := by
  cases f with
  | mk ft =>
    by_cases hft : ft.isEmpty <;>
      simp_all [List.isEmpty_iff, Fees.encode, Fees.decode, vecField, fieldDef,
        getField, List.find?, decList_encList _ _ decode_encode_feetoken]

theorem decode_encode_stakingtoken (s : StakingToken) :
    StakingToken.decode (StakingToken.encode s) = some s := rfl

theorem decode_encode_staking (s : Staking) :
    Staking.decode (Staking.encode s) = some s := by
  cases s with
  | mk st =>
    by_cases hst : st.isEmpty <;>
      simp_all [List.isEmpty_iff, Staking.encode, Staking.decode, vecField,
        fieldDef, getField, List.find?,
        decList_encList _ _ decode_encode_stakingtoken]

theorem decode_encode_explorer (e : Explorer) :
    Explorer.decode (Explorer.encode e) = some e := rfl

theorem ChainInfo.decode_fields (fs : List (String × Json)) (sc cn st nt pn ci
    bp dn nh : String) (sl : Nat) (ge : Genesis) (co : Codebase) (pe : Peers)
    (ap : Apis) (fe : Fees) (sk : Staking) (we ul : String)
    (ka : List String) (ex : List Explorer)
    (h1 : fieldDef fs "$schema" decStr "" = some sc)
    (h2 : fieldDef fs "chain_name" decStr "" = some cn)
    (h3 : fieldDef fs "status" decStr "" = some st)
    (h4 : fieldDef fs "network_type" decStr "" = some nt)
    (h5 : fieldDef fs "pretty_name" decStr "" = some pn)
    (h6 : fieldDef fs "chain_id" decStr "" = some ci)
    (h7 : fieldDef fs "bech32_prefix" decStr "" = some bp)
    (h8 : fieldDef fs "daemon_name" decStr "" = some dn)
    (h9 : fieldDef fs "node_home" decStr "" = some nh)
    (h10 : fieldDef fs "slip44" decU32 0 = some sl)
    (h11 : fieldDef fs "genesis" Genesis.decode Genesis.dflt = some ge)
    (h12 : fieldDef fs "codebase" Codebase.decode Codebase.dflt = some co)
    (h13 : fieldDef fs "peers" Peers.decode Peers.dflt = some pe)
    (h14 : fieldDef fs "apis" Apis.decode Apis.dflt = some ap)
    (h15 : fieldDef fs "fees" Fees.decode Fees.dflt = some fe)
    (h16 : fieldDef fs "staking" Staking.decode Staking.dflt = some sk)
    (h17 : fieldDef fs "website" decStr "" = some we)
    (h18 : fieldDef fs "update_link" decStr "" = some ul)
    (h19 : fieldDef fs "key_algos" (decList decStr) [] = some ka)
    (h20 : fieldDef fs "explorers" (decList Explorer.decode) [] = some ex) :
    ChainInfo.decode (.obj fs) =
      some { schema := sc, chain_name := cn, status := st, network_type := nt
             pretty_name := pn, chain_id := ci, bech32_prefix := bp
             daemon_name := dn, node_home := nh, slip44 := sl, genesis := ge
             codebase := co, peers := pe, apis := ap, fees := fe, staking := sk
             website := we, update_link := ul, key_algos := ka
             explorers := ex } := by
  simp only [ChainInfo.decode, h1, h2, h3, h4, h5, h6, h7, h8, h9, h10, h11,
    h12, h13, h14, h15, h16, h17, h18, h19, h20]

theorem decode_encode_chaininfo (c : ChainInfo) (h : c.slip44 < 4294967296) :
    ChainInfo.decode (ChainInfo.encode c) = some c := by
  cases c with
  | mk sc cn st nt pn ci bp dn nh sl ge co pe ap fe sk we ul ka ex =>
    exact ChainInfo.decode_fields _ sc cn st nt pn ci bp dn nh sl ge co pe ap
      fe sk we ul ka ex rfl rfl rfl rfl rfl rfl rfl rfl rfl
      (decU32_encU32 sl h) (decode_encode_genesis ge)
      (decode_encode_codebase co) (decode_encode_peers pe)
      (decode_encode_apis ap) (decode_encode_fees fe)
      (decode_encode_staking sk) rfl rfl
      (decList_encList _ _ decStr_encStr ka)
      (decList_encList _ _ decode_encode_explorer ex)

/-! ## The verified properties -/

/-- C1 (amended): when the raw-content fetch behind `get_chain`,
`get_assets` or `get_path` answers with HTTP status 404, the operation
returns the hard error `path {path} not found` — not successful absence.
(The claim as stated — 404 mapped to `Ok(None)` — is refuted by
`get_chain_404_not_absence`; in the code it is a deserialization failure,
not a 404, that is coerced to `None`.) -/
theorem not_found_is_error (fetch : Fetch) (repo : Repo) (name a b : String)
    (r1 r2 r3 : Response)
    (hc : fetch (repo.raw_file_url ++ "/" ++ repo.git_ref.display ++ "/"
      ++ (name ++ "/chain.json")) = some r1)
    (hcs : r1.status = 404)
    (ha : fetch (repo.raw_file_url ++ "/" ++ repo.git_ref.display ++ "/"
      ++ (name ++ "/assetlist.json")) = some r2)
    (has : r2.status = 404)
    (hp : fetch (repo.raw_file_url ++ "/" ++ repo.git_ref.display ++ "/"
      ++ ("_IBC/" ++ min a b ++ "-" ++ max a b ++ ".json")) = some r3)
    (hps : r3.status = 404) :
    get_chain fetch repo name = .error (.notFound (name ++ "/chain.json")) ∧
    get_assets fetch repo name
      = .error (.notFound (name ++ "/assetlist.json")) ∧
    get_path fetch repo a b
      = .error (.notFound ("_IBC/" ++ min a b ++ "-" ++ max a b ++ ".json")) := by
  refine ⟨?_, ?_, ?_⟩
  · simp [get_chain, get_file_content, hc, hcs, Except.map]
  · simp [get_assets, get_file_content, ha, has, Except.map]
  · simp [get_path, get_file_content, hp, hps, Except.map]

/-- Witness for C1 (amended) at a transport that answers 404 everywhere. -/
theorem not_found_is_error_witness :
    get_chain (fun _ => some ⟨404, Body.notJson⟩) Repo.defaultRepo
      "nonexistent-chain-xyz"
      = .error (.notFound ("nonexistent-chain-xyz" ++ "/chain.json")) ∧
    get_assets (fun _ => some ⟨404, Body.notJson⟩) Repo.defaultRepo
      "nonexistent-chain-xyz"
      = .error (.notFound ("nonexistent-chain-xyz" ++ "/assetlist.json")) ∧
    get_path (fun _ => some ⟨404, Body.notJson⟩) Repo.defaultRepo
      "osmosis" "cosmoshub"
      = .error (.notFound ("_IBC/" ++ min "osmosis" "cosmoshub" ++ "-"
          ++ max "osmosis" "cosmoshub" ++ ".json")) :=
  not_found_is_error (fun _ => some ⟨404, Body.notJson⟩) Repo.defaultRepo
    "nonexistent-chain-xyz" "osmosis" "cosmoshub"
    ⟨404, Body.notJson⟩ ⟨404, Body.notJson⟩ ⟨404, Body.notJson⟩
    rfl rfl rfl rfl rfl rfl

/-- C1 (counterexample): with a transport answering status 404 for every
address, `get_chain "nonexistent-chain-xyz"` returns the hard error
`path nonexistent-chain-xyz/chain.json not found`, not `Ok(None)` — the
source even has the test `get_path_not_present_errors` asserting the error
behaviour. -/
theorem get_chain_404_not_absence :
    get_chain (fun _ => some ⟨404, Body.notJson⟩) Repo.defaultRepo
      "nonexistent-chain-xyz"
      = Except.error (Err.notFound "nonexistent-chain-xyz/chain.json") ∧
    get_chain (fun _ => some ⟨404, Body.notJson⟩) Repo.defaultRepo
      "nonexistent-chain-xyz" ≠ Except.ok none :=
  ⟨rfl, fun h => Except.noConfusion h⟩

/-- C2 (amended): when the fetch behind `get_chain`, `get_assets` or
`get_path` succeeds with a non-404 response whose body fails to
deserialize (not valid JSON, or JSON not matching the schema), the
operation returns successful absence `Ok(None)` — never a hard error:
`parse_json` in the source is `serde_json::from_str(&data).ok()`.  (The
claim as stated — deserialization failure is a hard error — is refuted by
`schema_mismatch_not_error`.) -/
theorem parse_failure_is_absence (fetch : Fetch) (repo : Repo)
    (name a b : String) (r1 r2 r3 : Response)
    (hc : fetch (repo.raw_file_url ++ "/" ++ repo.git_ref.display ++ "/"
      ++ (name ++ "/chain.json")) = some r1)
    (hcs : r1.status ≠ 404)
    (hcp : parse_json ChainInfo.decode r1.body = none)
    (ha : fetch (repo.raw_file_url ++ "/" ++ repo.git_ref.display ++ "/"
      ++ (name ++ "/assetlist.json")) = some r2)
    (has : r2.status ≠ 404)
    (hap : parse_json AssetList.decode r2.body = none)
    (hp : fetch (repo.raw_file_url ++ "/" ++ repo.git_ref.display ++ "/"
      ++ ("_IBC/" ++ min a b ++ "-" ++ max a b ++ ".json")) = some r3)
    (hps : r3.status ≠ 404)
    (hpp : parse_json IBCPath.decode r3.body = none) :
    get_chain fetch repo name = .ok none ∧
    get_assets fetch repo name = .ok none ∧
    get_path fetch repo a b = .ok none := by
  refine ⟨?_, ?_, ?_⟩
  · simp [get_chain, get_file_content, hc, hcs, hcp, Except.map]
  · simp [get_assets, get_file_content, ha, has, hap, Except.map]
  · simp [get_path, get_file_content, hp, hps, hpp, Except.map]

/-- Witness for C2 (amended) at a transport answering 200 with a non-JSON
body everywhere. -/
theorem parse_failure_is_absence_witness :
    get_chain (fun _ => some ⟨200, Body.notJson⟩) Repo.defaultRepo "cosmoshub"
      = .ok none ∧
    get_assets (fun _ => some ⟨200, Body.notJson⟩) Repo.defaultRepo "cosmoshub"
      = .ok none ∧
    get_path (fun _ => some ⟨200, Body.notJson⟩) Repo.defaultRepo
      "osmosis" "cosmoshub" = .ok none :=
  parse_failure_is_absence (fun _ => some ⟨200, Body.notJson⟩)
    Repo.defaultRepo "cosmoshub" "osmosis" "cosmoshub"
    ⟨200, Body.notJson⟩ ⟨200, Body.notJson⟩ ⟨200, Body.notJson⟩
    rfl (by decide) rfl rfl (by decide) rfl rfl (by decide) rfl

/-- C2 (counterexample): a 200 response whose body is valid JSON that does
not match the `ChainInfo` schema — or is not valid JSON at all — makes the
single-resource operations return `Ok(None)`, not an error. -/
theorem schema_mismatch_not_error :
    get_chain (fun _ => some ⟨200, Body.json (Json.str "schema-mismatch")⟩)
      Repo.defaultRepo "cosmoshub" = Except.ok none ∧
    get_path (fun _ => some ⟨200, Body.notJson⟩) Repo.defaultRepo
      "cosmoshub" "osmosis" = Except.ok none :=
  ⟨rfl, rfl⟩

/-- C3: for all chain-name strings `a` and `b`, `get_path a b` and
`get_path b a` build the identical resource path (the lexicographically
smaller name first, via `min`/`max`) and therefore return identical
results, for every transport and repo configuration. -/
theorem get_path_comm (fetch : Fetch) (repo : Repo) (a b : String) :
    ("_IBC/" ++ min a b ++ "-" ++ max a b ++ ".json")
      = ("_IBC/" ++ min b a ++ "-" ++ max b a ++ ".json") ∧
    get_path fetch repo a b = get_path fetch repo b a := by
  constructor
  · rw [min_comm a b, max_comm a b]
  · unfold get_path
    rw [min_comm a b, max_comm a b]

/-- C4 (code evaluated at the failing input): deserializing a `ChainInfo`
from an object carrying a field that is not part of the schema succeeds —
the struct does not carry `deny_unknown_fields`, although the comment
above it in `src/chain.rs` claims unknown fields are denied; schema drift
is silently swallowed, contradicting both that comment and the spec. -/
theorem chainInfo_accepts_unknown_fields :
    ChainInfo.decode (.obj [("field_not_in_the_chain_schema", .num 1)])
      = some ChainInfo.dflt ∧
    ChainInfo.decode (.obj [("chain_name", .str "osmosis"),
        ("field_not_in_the_chain_schema", .null)])
      = some { ChainInfo.dflt with chain_name := "osmosis" } := by
  exact ⟨by decide, by decide⟩

/-- C5 (counterexample): a listing entry named `a.json.json` of file kind
is kept by `list_paths`, and stripping one `.json` suffix leaves
`a.json` — a returned string that still ends with the literal suffix
`.json`, refuting the claimed postcondition. -/
theorem list_paths_strips_once :
    list_paths (fun _ => some ⟨200, Body.json (Json.arr
      [Json.obj [("name", Json.str "a.json.json"), ("type", Json.str "file")]])⟩)
      Repo.defaultRepo = .ok ["a.json"] ∧
    ends_with "a.json" ".json" = true :=
  ⟨rfl, rfl⟩

/-- C5 (amended): for every directory-listing response, `list_paths` keeps
exactly the file-kind entries whose name does not start with an underscore
and ends with `.json`, and strips the final `".json".len()` bytes from
each kept name — once, not recursively: every returned string is a kept
name with its final `.json` removed, and it can itself still end in
`.json` when the original name ended in `.json.json`. -/
theorem list_paths_characterization (fetch : Fetch) (repo : Repo)
    (r : Response) (cs : List Content)
    (hf : fetch (repo.url ++ "/_IBC?ref=" ++ repo.git_ref.display) = some r)
    (hd : decContentList r.body = some cs) :
    list_paths fetch repo = .ok ((cs.filter (fun c =>
        c.type_field == "file" && !(starts_with c.name '_')
          && ends_with c.name ".json")).map
      (fun c => strip_json_suffix c.name)) ∧
    ∀ n ∈ (cs.filter (fun c =>
        c.type_field == "file" && !(starts_with c.name '_')
          && ends_with c.name ".json")).map (fun c => strip_json_suffix c.name),
      ∃ c ∈ cs, ends_with c.name ".json" = true
        ∧ n = strip_json_suffix c.name := by
  constructor
  · simp [list_paths, http_get, hf, hd]
  · intro n hn
    simp only [List.mem_map, List.mem_filter, Bool.and_eq_true,
      Bool.not_eq_true', beq_iff_eq] at hn
    obtain ⟨c, ⟨hc, hcond⟩, rfl⟩ := hn
    exact ⟨c, hc, hcond.2, rfl⟩

/-- Witness for C5 (amended) on a concrete four-entry listing. -/
theorem list_paths_characterization_witness :
    list_paths (fun _ => some ⟨200, Body.json (Json.arr
      [Json.obj [("name", Json.str "cosmoshub-osmosis.json"),
                 ("type", Json.str "file")],
       Json.obj [("name", Json.str "_hidden.json"), ("type", Json.str "file")],
       Json.obj [("name", Json.str "readme.md"), ("type", Json.str "file")],
       Json.obj [("name", Json.str "somedir"), ("type", Json.str "dir")]])⟩)
      Repo.defaultRepo = .ok ["cosmoshub-osmosis"] :=
  (list_paths_characterization _ Repo.defaultRepo
    ⟨200, Body.json (Json.arr
      [Json.obj [("name", Json.str "cosmoshub-osmosis.json"),
                 ("type", Json.str "file")],
       Json.obj [("name", Json.str "_hidden.json"), ("type", Json.str "file")],
       Json.obj [("name", Json.str "readme.md"), ("type", Json.str "file")],
       Json.obj [("name", Json.str "somedir"), ("type", Json.str "dir")]])⟩
    [⟨"cosmoshub-osmosis.json", "file"⟩, ⟨"_hidden.json", "file"⟩,
     ⟨"readme.md", "file"⟩, ⟨"somedir", "dir"⟩] rfl rfl).1


/-- C6: for every directory-listing response, `list_chains` returns exactly
the names of the directory-kind entries whose name does not start with an
underscore and is not `.github`, in listing order (a filter-map preserves
order); consequently no returned string starts with `_` and `.github`
never appears. -/
theorem list_chains_characterization (fetch : Fetch) (repo : Repo)
    (r : Response) (cs : List Content)
    (hf : fetch (repo.url ++ "?ref=" ++ repo.git_ref.display) = some r)
    (hd : decContentList r.body = some cs) :
    list_chains fetch repo = .ok ((cs.filter (fun c =>
        c.type_field == "dir" && !(starts_with c.name '_')
          && c.name != ".github")).map (fun c => c.name)) ∧
    ∀ n ∈ (cs.filter (fun c =>
        c.type_field == "dir" && !(starts_with c.name '_')
          && c.name != ".github")).map (fun c => c.name),
      starts_with n '_' = false ∧ n ≠ ".github" := by
  constructor
  · simp [list_chains, http_get, hf, hd]
  · intro n hn
    simp only [List.mem_map, List.mem_filter, Bool.and_eq_true,
      Bool.not_eq_true', bne_iff_ne, beq_iff_eq] at hn
    obtain ⟨c, ⟨hc, hcond⟩, rfl⟩ := hn
    exact ⟨hcond.1.2, hcond.2⟩

/-- Witness for C6 on a concrete five-entry listing. -/
theorem list_chains_characterization_witness :
    list_chains (fun _ => some ⟨200, Body.json (Json.arr
      [Json.obj [("name", Json.str ".github"), ("type", Json.str "dir")],
       Json.obj [("name", Json.str "_IBC"), ("type", Json.str "dir")],
       Json.obj [("name", Json.str "cosmoshub"), ("type", Json.str "dir")],
       Json.obj [("name", Json.str "osmosis"), ("type", Json.str "dir")],
       Json.obj [("name", Json.str "README.md"), ("type", Json.str "file")]])⟩)
      Repo.defaultRepo = .ok ["cosmoshub", "osmosis"] :=
  (list_chains_characterization _ Repo.defaultRepo
    ⟨200, Body.json (Json.arr
      [Json.obj [("name", Json.str ".github"), ("type", Json.str "dir")],
       Json.obj [("name", Json.str "_IBC"), ("type", Json.str "dir")],
       Json.obj [("name", Json.str "cosmoshub"), ("type", Json.str "dir")],
       Json.obj [("name", Json.str "osmosis"), ("type", Json.str "dir")],
       Json.obj [("name", Json.str "README.md"), ("type", Json.str "file")]])⟩
    [⟨".github", "dir"⟩, ⟨"_IBC", "dir"⟩, ⟨"cosmoshub", "dir"⟩,
     ⟨"osmosis", "dir"⟩, ⟨"README.md", "file"⟩] rfl rfl).1

/-- C7 (counterexample): a listing response with status 404 whose body is
the empty JSON array makes `list_chains` return success (`Ok []`), not a
hard error — the listing operations never inspect the HTTP status. -/
theorem listing_404_can_succeed :
    list_chains (fun _ => some ⟨404, Body.json (Json.arr [])⟩)
      Repo.defaultRepo = .ok [] :=
  rfl

/-- C7 (amended): listing operations ignore the HTTP status entirely: for
any response (404 included), `list_chains`/`list_paths` fail exactly when
the body does not parse as a directory listing — a real-world 404 errors
only because its error body is not a listing — and they return a strict
success/error dichotomy with no absence channel. -/
theorem listing_ignores_status (fetch : Fetch) (repo : Repo)
    (r1 r2 : Response)
    (h1 : fetch (repo.url ++ "?ref=" ++ repo.git_ref.display) = some r1)
    (h2 : fetch (repo.url ++ "/_IBC?ref=" ++ repo.git_ref.display) = some r2) :
    (list_chains fetch repo = .error Err.listingParse
      ↔ decContentList r1.body = none) ∧
    (list_paths fetch repo = .error Err.listingParse
      ↔ decContentList r2.body = none) := by
  constructor
  · cases hd : decContentList r1.body <;>
      simp [list_chains, http_get, h1, hd]
  · cases hd : decContentList r2.body <;>
      simp [list_paths, http_get, h2, hd]

/-- Witness for C7 (amended) at a transport answering 404 with a non-JSON
body. -/
theorem listing_ignores_status_witness :
    (list_chains (fun _ => some ⟨404, Body.notJson⟩) Repo.defaultRepo
        = .error Err.listingParse ↔ decContentList Body.notJson = none) ∧
    (list_paths (fun _ => some ⟨404, Body.notJson⟩) Repo.defaultRepo
        = .error Err.listingParse ↔ decContentList Body.notJson = none) :=
  listing_ignores_status (fun _ => some ⟨404, Body.notJson⟩) Repo.defaultRepo
    ⟨404, Body.notJson⟩ ⟨404, Body.notJson⟩ rfl rfl

/-- C8: serializing any `ChainInfo` value (whose `slip44` fits in `u32`,
as the Rust type guarantees) and deserializing the result yields a value
equal to the original; the fields skipped when empty
(`skip_serializing_if = "Vec::is_empty"`) default back to empty on
deserialization. -/
theorem chainInfo_roundtrip (c : ChainInfo) (h : c.slip44 < 4294967296) :
    ChainInfo.decode (ChainInfo.encode c) = some c :=
  decode_encode_chaininfo c h

/-- Witness for C8 at a concrete `ChainInfo` with a non-empty fee list. -/
theorem chainInfo_roundtrip_witness :
    ({ ChainInfo.dflt with
        chain_name := "osmosis", slip44 := 118
        key_algos := ["secp256k1"]
        fees := ⟨[⟨"uosmo", 0, 1/400, 1/40, 1/25⟩]⟩ } : ChainInfo).slip44
      < 4294967296 ∧
    ChainInfo.decode (ChainInfo.encode
      { ChainInfo.dflt with
        chain_name := "osmosis", slip44 := 118
        key_algos := ["secp256k1"]
        fees := ⟨[⟨"uosmo", 0, 1/400, 1/40, 1/25⟩]⟩ })
      = some { ChainInfo.dflt with
        chain_name := "osmosis", slip44 := 118
        key_algos := ["secp256k1"]
        fees := ⟨[⟨"uosmo", 0, 1/400, 1/40, 1/25⟩]⟩ } :=
  ⟨by decide, chainInfo_roundtrip _ (by decide)⟩

/-- C9: the repo reference resolves as specified (`Latest` to the branch
name `master`, a pinned `SHA` to its stored revision string); the chain
descriptor is fetched exactly at
`{raw_file_url}/{resolved_ref}/{chain_name}/chain.json` and the path
descriptor exactly at `{raw_file_url}/{resolved_ref}/_IBC/{lo}-{hi}.json`
with `lo`/`hi` the lexicographic min/max of the two names: two transports
agreeing on those addresses give identical results. -/
theorem resource_addresses (fetch fetch' : Fetch) (repo : Repo)
    (name a b s : String)
    (hc : fetch (repo.raw_file_url ++ "/" ++ repo.git_ref.display ++ "/"
        ++ (name ++ "/chain.json"))
      = fetch' (repo.raw_file_url ++ "/" ++ repo.git_ref.display ++ "/"
        ++ (name ++ "/chain.json")))
    (hp : fetch (repo.raw_file_url ++ "/" ++ repo.git_ref.display ++ "/"
        ++ ("_IBC/" ++ min a b ++ "-" ++ max a b ++ ".json"))
      = fetch' (repo.raw_file_url ++ "/" ++ repo.git_ref.display ++ "/"
        ++ ("_IBC/" ++ min a b ++ "-" ++ max a b ++ ".json"))) :
    Ref.display Ref.Latest = "master" ∧
    Ref.display (Ref.SHA s) = s ∧
    (repo.raw_file_url ++ "/" ++ repo.git_ref.display ++ "/"
        ++ (name ++ "/chain.json")
      = repo.raw_file_url ++ "/" ++ repo.git_ref.display ++ "/" ++ name
        ++ "/chain.json") ∧
    (repo.raw_file_url ++ "/" ++ repo.git_ref.display ++ "/"
        ++ ("_IBC/" ++ min a b ++ "-" ++ max a b ++ ".json")
      = repo.raw_file_url ++ "/" ++ repo.git_ref.display ++ "/_IBC/"
        ++ min a b ++ "-" ++ max a b ++ ".json") ∧
    get_chain fetch repo name = get_chain fetch' repo name ∧
    get_path fetch repo a b = get_path fetch' repo a b := by
  refine ⟨rfl, rfl, ?_, ?_, ?_, ?_⟩
  · exact (String.append_assoc _ _ _).symm
  · have hYI : (repo.raw_file_url ++ "/" ++ repo.git_ref.display ++ "/")
        ++ "_IBC/"
        = repo.raw_file_url ++ "/" ++ repo.git_ref.display ++ "/_IBC/" := by
      rw [String.append_assoc
        (repo.raw_file_url ++ "/" ++ repo.git_ref.display) "/" "_IBC/"]
      rfl
    simp only [← String.append_assoc]
    rw [hYI]
  · unfold get_chain get_file_content
    rw [hc]
  · unfold get_path get_file_content
    rw [hp]

/-- Witness for C9 at the default repo configuration. -/
theorem resource_addresses_witness :
    Ref.display Ref.Latest = "master" ∧
    Ref.display (Ref.SHA "8d84b83cbead0c61de666b709a036cc829426eef")
      = "8d84b83cbead0c61de666b709a036cc829426eef" ∧
    (Repo.defaultRepo.raw_file_url ++ "/"
        ++ Repo.defaultRepo.git_ref.display ++ "/"
        ++ ("cosmoshub" ++ "/chain.json")
      = Repo.defaultRepo.raw_file_url ++ "/"
        ++ Repo.defaultRepo.git_ref.display ++ "/" ++ "cosmoshub"
        ++ "/chain.json") ∧
    (Repo.defaultRepo.raw_file_url ++ "/"
        ++ Repo.defaultRepo.git_ref.display ++ "/"
        ++ ("_IBC/" ++ min "osmosis" "cosmoshub" ++ "-"
          ++ max "osmosis" "cosmoshub" ++ ".json")
      = Repo.defaultRepo.raw_file_url ++ "/"
        ++ Repo.defaultRepo.git_ref.display ++ "/_IBC/"
        ++ min "osmosis" "cosmoshub" ++ "-" ++ max "osmosis" "cosmoshub"
        ++ ".json") ∧
    get_chain (fun _ => none) Repo.defaultRepo "cosmoshub"
      = get_chain (fun _ => none) Repo.defaultRepo "cosmoshub" ∧
    get_path (fun _ => none) Repo.defaultRepo "osmosis" "cosmoshub"
      = get_path (fun _ => none) Repo.defaultRepo "osmosis" "cosmoshub" :=
  resource_addresses (fun _ => none) (fun _ => none) Repo.defaultRepo
    "cosmoshub" "osmosis" "cosmoshub"
    "8d84b83cbead0c61de666b709a036cc829426eef" rfl rfl

/-- C10: the empty JSON object deserializes as an `IBCPath` (and as a
`ChainInfo`) into the all-defaults value — every string empty, every
boolean false, every numeric field zero, every sequence empty — so a 200
fetch whose body is the empty object makes `get_path` return that default
descriptor rather than an error. -/
theorem empty_object_decodes_to_defaults :
    ChainInfo.decode (.obj []) = some ChainInfo.dflt ∧
    IBCPath.decode (.obj []) = some IBCPath.dflt ∧
    get_path (fun _ => some ⟨200, Body.json (.obj [])⟩) Repo.defaultRepo
      "cosmoshub" "osmosis" = .ok (some IBCPath.dflt) :=
  ⟨by decide, by decide, rfl⟩
